import Mathlib

/-!
Shallow embedding of the eigen-py snapshot store and aggregation layer.

The embedding follows `src/database/schema.py` (tables and SQL views),
`src/database/manager.py` (`insert_or_update`, `bulk_insert`, transaction
commit/rollback), `src/core/client.py` and `src/cli/main.py` (cache
management surface).  A DuckDB `DECIMAL(p, s)` column holds exact
multiples of 10^-s; it is modelled as the integer number of 10^-s units
(`Int`), so sums and comparisons are exact.  `TIMESTAMP` is modelled as
`Nat`, `VARCHAR` as `String`.
-/

/-- A row of the `operator_metrics` table (schema.py, `_create_operator_metrics_table`):
PRIMARY KEY (operator_address, timestamp), FOREIGN KEY operator_address → operators. -/
structure OperatorMetricsRow where
  operator_address : String
  timestamp : Nat
  block_number : Int
  num_stakers : Int
  eth_tvl : Int
  eigen_tvl : Int
  total_tvl_usd : Int
  data_source : String
deriving DecidableEq, Repr

/-- A row of the `operator_avs_registrations` table:
PRIMARY KEY (operator_address, avs_address). -/
structure RegistrationRow where
  operator_address : String
  avs_address : String
  registration_timestamp : Nat
  is_active : Bool
deriving DecidableEq, Repr

/-- A row of the `avs_metrics` table: PRIMARY KEY (avs_address, timestamp). -/
structure AvsMetricsRow where
  avs_address : String
  timestamp : Nat
  operator_count : Int
  staker_count : Int
  eth_tvl : Int
  total_tvl_usd : Int
deriving DecidableEq, Repr

/-- A row of the `strategies` table: PRIMARY KEY strategy_address. -/
structure StrategyRow where
  strategy_address : String
  symbol : String
  name : String
  underlying_token : String
  coingecko_id : String
  decimals : Int
deriving DecidableEq, Repr

/-- A row of the `operator_strategy_shares` table:
PRIMARY KEY (operator_address, strategy_address, timestamp). -/
structure OperatorStrategySharesRow where
  operator_address : String
  strategy_address : String
  timestamp : Nat
  block_number : Int
  shares : Int
  tokens : Int
  usd_value : Int
deriving DecidableEq, Repr

/-- A row of the `avs_strategy_shares` table:
PRIMARY KEY (avs_address, strategy_address, timestamp). -/
structure AvsStrategySharesRow where
  avs_address : String
  strategy_address : String
  timestamp : Nat
  shares : Int
deriving DecidableEq, Repr

/-- The eight tables created by `DatabaseSchema.create_all_tables`.  The
`operators` and `avs` tables carry metadata columns not read by any view
aggregate except the primary-key address, so they are modelled by their
primary keys. -/
structure Database where
  operators : List String
  operator_metrics : List OperatorMetricsRow
  avs : List String
  avs_metrics : List AvsMetricsRow
  operator_avs_registrations : List RegistrationRow
  strategies : List StrategyRow
  operator_strategy_shares : List OperatorStrategySharesRow
  avs_strategy_shares : List AvsStrategySharesRow
deriving DecidableEq, Repr

/-- `SELECT MAX(timestamp) FROM operator_metrics om2 WHERE om2.operator_address = o.operator_address`
combined with `WHERE om.timestamp = (...)`: the metrics row of maximal
timestamp for an operator, `none` when the operator has no metrics row
(the SQL `WHERE` then compares against NULL and drops the operator).
Under the (operator_address, timestamp) primary key the maximal row is
unique. -/
def latestMetrics (db : Database) (addr : String) : Option OperatorMetricsRow :=
  (db.operator_metrics.filter (fun r => r.operator_address == addr)).argmax
    (fun r => r.timestamp)

/-- The joined row set of `v_system_aggregate_metrics` (schema.py,
`_create_system_aggregate_view`): operators, inner-joined (via the
NULL-rejecting `WHERE`) with their latest metrics row, then LEFT JOINed
with `operator_avs_registrations` on operator_address — an operator with
k ≥ 1 registration rows contributes k joined rows, one with no
registrations contributes a single row with a NULL registration. -/
def systemAggRows (db : Database) :
    List (String × OperatorMetricsRow × Option RegistrationRow) :=
  db.operators.flatMap (fun o =>
    match latestMetrics db o with
    | none => []
    | some om =>
      let regs := db.operator_avs_registrations.filter
        (fun r => r.operator_address == o)
      match regs with
      | [] => [(o, om, none)]
      | _ => regs.map (fun r => (o, om, some r)))

/-- `COALESCE(SUM(om.total_tvl_usd), 0)` of `v_system_aggregate_metrics`:
the sum ranges over the joined (fanned-out) row set. -/
def total_system_tvl_usd (db : Database) : Int :=
  (systemAggRows db).foldl (fun acc row => acc + row.2.1.total_tvl_usd) 0

/-- `COUNT(DISTINCT o.operator_address)` of `v_system_aggregate_metrics`. -/
def total_operators (db : Database) : Nat :=
  ((systemAggRows db).map (fun row => row.1)).dedup.length

/-- Written from the spec for comparison with `total_system_tvl_usd`
(spec §4.3 `system_totals`): the sum over `resolve_all(operator, at latest)`
of each operator's resolved `total_tvl_usd`, each operator counted once
regardless of its registrations. -/
def specSystemTotalUsd (db : Database) : Int :=
  (db.operators.dedup.filterMap (fun o =>
    (latestMetrics db o).map (fun om => om.total_tvl_usd))).foldl (· + ·) 0

/-- The empty database, as left by `create_all_tables` (every table dropped
and recreated with no rows). -/
def emptyDatabase : Database :=
  ⟨[], [], [], [], [], [], [], []⟩


/-- A metrics row with only the columns the aggregate views read set to
interesting values; the rest take the table defaults from the schema. -/
def mkMetrics (addr : String) (ts : Nat) (usd : Int) : OperatorMetricsRow :=
  ⟨addr, ts, 0, 0, 0, 0, usd, "unknown"⟩

/-- The spec §8 scenario: operators A and B, one metrics row each at t=100
with total_tvl_usd 1,000,000 and 3,000,000, no AVS registrations. -/
def dbScenario : Database :=
  { emptyDatabase with
    operators := ["0xA", "0xB"]
    operator_metrics := [mkMetrics "0xA" 100 (1000000 * 100), mkMetrics "0xB" 100 (3000000 * 100)] }

/-- Operator A with total_tvl_usd 1,000,000, registered to two AVS
services: the input on which the system aggregate view fans out. -/
def dbFanout : Database :=
  { emptyDatabase with
    operators := ["0xA"]
    operator_metrics := [mkMetrics "0xA" 100 (1000000 * 100)]
    avs := ["0xS1", "0xS2"]
    operator_avs_registrations :=
      [⟨"0xA", "0xS1", 50, true⟩, ⟨"0xA", "0xS2", 60, true⟩] }

/-- A row of `v_operator_current_stats` (schema.py,
`_create_operator_current_stats_view`), restricted to the columns the
downstream views read; the GROUP BY collapses the registrations join back
to one row per operator, with `COUNT(DISTINCT oar.avs_address)` over the
active registrations as `avs_count`. -/
structure OperatorCurrentStatsRow where
  operator_address : String
  num_stakers : Int
  eth_tvl : Int
  eigen_tvl : Int
  total_tvl_usd : Int
  last_updated : Nat
  avs_count : Nat
deriving DecidableEq, Repr

/-- `v_operator_current_stats`: one row per operator that has at least one
metrics row (the NULL-rejecting WHERE drops the rest), carrying its
maximal-timestamp metrics and the distinct count of active AVS
registrations. -/
def operatorCurrentStats (db : Database) : List OperatorCurrentStatsRow :=
  db.operators.filterMap (fun o =>
    (latestMetrics db o).map (fun om =>
      { operator_address := o
        num_stakers := om.num_stakers
        eth_tvl := om.eth_tvl
        eigen_tvl := om.eigen_tvl
        total_tvl_usd := om.total_tvl_usd
        last_updated := om.timestamp
        avs_count := ((db.operator_avs_registrations.filter
          (fun r => r.operator_address == o && r.is_active)).map
          (fun r => r.avs_address)).dedup.length }))

/-- The ordering constraint of `v_top_operators_by_tvl` (schema.py,
`_create_top_operators_view`): `ORDER BY total_tvl_usd DESC` — weakly
descending by `total_tvl_usd`, with no further sort key. -/
def SortedByTvlDesc (l : List OperatorCurrentStatsRow) : Prop :=
  l.Pairwise (fun a b => b.total_tvl_usd ≤ a.total_tvl_usd)

/-- The possible result sequences of `v_top_operators_by_tvl`: SQL fixes the
multiset of rows (those of `v_operator_current_stats`) and constrains the
order only up to `ORDER BY total_tvl_usd DESC`; rows with equal
`total_tvl_usd` may appear in either relative order. -/
def TopOperatorsOutput (db : Database) (out : List OperatorCurrentStatsRow) : Prop :=
  out.Perm (operatorCurrentStats db) ∧ SortedByTvlDesc out

/-- The ordering the spec claims for `rank_by`: strictly descending by the
attribute with ties broken by entity id ascending (ids compared
lexicographically on their characters). -/
def ClaimedRankOrder (out : List OperatorCurrentStatsRow) : Prop :=
  out.Pairwise (fun a b => b.total_tvl_usd < a.total_tvl_usd ∨
    (b.total_tvl_usd = a.total_tvl_usd ∧
      a.operator_address.data < b.operator_address.data))

/-- Modelled from the spec: `QueryEngine.get_top_operators(limit)` is called
by `EigenLayerClient.get_top_operators` but `src/query/engine.py` is not in
the source tree; spec §4.3 says `rank_by` truncates the ordered sequence to
`limit`. -/
def get_top_operators (out : List OperatorCurrentStatsRow) (limit : Nat) :
    List OperatorCurrentStatsRow :=
  out.take limit

/-- Two operators with equal `total_tvl_usd` at the same timestamp: the
input exhibiting the unconstrained tie order of `v_top_operators_by_tvl`. -/
def dbTie : Database :=
  { emptyDatabase with
    operators := ["0xa", "0xb"]
    operator_metrics := [mkMetrics "0xa" 100 500, mkMetrics "0xb" 100 500] }

/-- The `v_operator_current_stats` row of operator 0xa in `dbTie`. -/
def tieRowA : OperatorCurrentStatsRow := ⟨"0xa", 0, 0, 0, 500, 100, 0⟩

/-- The `v_operator_current_stats` row of operator 0xb in `dbTie`. -/
def tieRowB : OperatorCurrentStatsRow := ⟨"0xb", 0, 0, 0, 500, 100, 0⟩

/-- Modelled from the spec (§3 ResolvedState, §4.2): the
reference-time-parameterised resolution is not in the source tree — the
SQL views implement only its latest-timestamp special case — so it is
modelled from the spec's words: the fact with maximum timestamp ≤ at_time
for the entity, absent when there is none. -/
def resolve (db : Database) (addr : String) (at_time : Nat) :
    Option OperatorMetricsRow :=
  (db.operator_metrics.filter
    (fun r => r.operator_address == addr && decide (r.timestamp ≤ at_time))).argmax
    (fun r => r.timestamp)

/-- A database-level failure raised by the DuckDB engine while executing a
statement; for the `operator_metrics` insert path the schema makes this a
foreign-key violation on `operator_address`. -/
inductive SqlError where
  | foreignKeyViolation : String → SqlError
deriving DecidableEq, Repr

/-- `DatabaseManager` wraps every engine failure as `DatabaseError`
(manager.py raises DatabaseError from each except branch). -/
inductive ManagerError where
  | databaseError : SqlError → ManagerError
deriving DecidableEq, Repr

/-- The single DuckDB connection of `DatabaseManager`: the committed
database plus the connection's pending (uncommitted) view of it.
`conn.commit()` publishes pending; `conn.rollback()` restores committed. -/
structure DbState where
  committed : Database
  pending : Database
deriving DecidableEq, Repr

/-- `self.conn.commit()`. -/
def dbCommit (s : DbState) : DbState := ⟨s.pending, s.pending⟩

/-- `self.conn.rollback()`. -/
def dbRollback (s : DbState) : DbState := ⟨s.committed, s.committed⟩

/-- The primary-key comparison of the ON CONFLICT clause of the
`operator_metrics` upsert statement. -/
def metricsKeyMatch (r : OperatorMetricsRow) : OperatorMetricsRow → Bool :=
  fun x => x.operator_address == r.operator_address && x.timestamp == r.timestamp

/-- The conflict resolution of the statement: the row carrying the same
(operator_address, timestamp) primary key is overwritten in place when
present, otherwise the new row is appended. -/
def upsertedMetricsList (l : List OperatorMetricsRow) (r : OperatorMetricsRow) :
    List OperatorMetricsRow :=
  if l.any (metricsKeyMatch r) then
    l.map (fun x => if metricsKeyMatch r x then r else x)
  else l ++ [r]

/-- The statement built by `insert_or_update` for the `operator_metrics`
table: `INSERT INTO operator_metrics (...) VALUES (...) ON CONFLICT
(operator_address, timestamp) DO UPDATE SET <non-key columns> =
EXCLUDED...`.  A conflicting row is overwritten in place, otherwise the
row is appended; the statement fails when the `operator_address` foreign
key (schema.py) has no matching `operators` row. -/
def upsertMetrics (db : Database) (r : OperatorMetricsRow) :
    Except SqlError Database :=
  if r.operator_address ∈ db.operators then
    .ok { db with operator_metrics := upsertedMetricsList db.operator_metrics r }
  else .error (.foreignKeyViolation r.operator_address)

/-- `DatabaseManager.insert_or_update` (manager.py): execute the upsert then
`self.conn.commit()`; on any exception `self.conn.rollback()` and raise
`DatabaseError`. -/
def insert_or_update (s : DbState) (r : OperatorMetricsRow) :
    DbState × Option ManagerError :=
  match upsertMetrics s.pending r with
  | .ok db => (dbCommit ⟨s.committed, db⟩, none)
  | .error e => (dbRollback s, some (.databaseError e))

/-- The row loop of `DatabaseManager.bulk_insert` when `conflict_columns`
is given, followed by the trailing `self.conn.commit()`; an exception
raised by `insert_or_update` aborts the loop, is caught by the
surrounding try, rolls back, and is re-raised as `DatabaseError`. -/
def bulkLoop (s : DbState) : List OperatorMetricsRow → DbState × Option ManagerError
  | [] => (dbCommit s, none)
  | r :: rest =>
    match insert_or_update s r with
    | (s2, none) => bulkLoop s2 rest
    | (s2, some e) => (dbRollback s2, some e)

/-- `DatabaseManager.bulk_insert` (manager.py): returns immediately on an
empty batch, otherwise runs the row loop. -/
def bulk_insert (s : DbState) (rows : List OperatorMetricsRow) :
    DbState × Option ManagerError :=
  match rows with
  | [] => (s, none)
  | _ :: _ => bulkLoop s rows

/-- Applying a list of upserts, ignoring failed ones: the committed contents
after the successfully applied prefix of a batch. -/
def applyValidUpserts (db : Database) (rows : List OperatorMetricsRow) : Database :=
  rows.foldl (fun acc r =>
    match upsertMetrics acc r with
    | .ok db2 => db2
    | .error _ => acc) db

/-- Number of `operator_metrics` rows carrying the primary key of a row. -/
def metricsKeyCount (db : Database) (r : OperatorMetricsRow) : Nat :=
  (db.operator_metrics.filter (metricsKeyMatch r)).length

/-- The batch database for the bulk-insert claims: operator 0xA exists,
0xB does not. -/
def dbBatch : Database := { emptyDatabase with operators := ["0xA"] }

/-- Quiescent connection state over `dbBatch`. -/
def sBatch : DbState := ⟨dbBatch, dbBatch⟩

/-- A valid first record (known operator 0xA). -/
def rowGood1 : OperatorMetricsRow := mkMetrics "0xA" 100 500

/-- A record failing the schema's per-record check: operator 0xB is not in
`operators`, so its insert violates the foreign key. -/
def rowBad : OperatorMetricsRow := mkMetrics "0xB" 100 700

/-- A valid record placed after the failing one in the batch. -/
def rowGood2 : OperatorMetricsRow := mkMetrics "0xA" 200 900

/-- The `--type` choices of the CLI `clear_cache` command (cli/main.py):
`click.Choice(["rpc", "prices", "contracts", "all"])`. -/
def cacheTypeChoices : List String := ["rpc", "prices", "contracts", "all"]

/-- `click.Choice` conversion for the `--type` option of `clear_cache`
(cli/main.py): a value outside the declared choices is rejected with a
usage error before the command body runs; the body maps "all" to None
(clear every namespace) and passes the namespace through otherwise. -/
def parseCacheType (s : String) : Except String (Option String) :=
  if s ∈ cacheTypeChoices then
    .ok (if s == "all" then none else some s)
  else .error s

/-- The closed set of cache namespaces (spec §6). -/
def cacheNamespaces : List String := ["rpc", "prices", "contracts"]

/-- Result of a cache clear request. -/
inductive CacheClearResult where
  | cleared : List String → CacheClearResult
  | inputError : String → CacheClearResult
deriving DecidableEq, Repr

/-- Modelled from the spec: `CacheManager.clear_cache` (src/cache/manager.py)
is called by `EigenLayerClient.clear_cache` but is not in the source tree.
Spec §6: cache namespaces are the closed set rpc, prices, contracts; a
clear request for an unrecognized namespace is an input error, not
silently ignored; None clears all namespaces (§4.1). -/
def clear_cache (ns : Option String) : CacheClearResult :=
  match ns with
  | none => .cleared cacheNamespaces
  | some s => if s ∈ cacheNamespaces then .cleared [s] else .inputError s

/-- A cache entry (spec §3 CacheEntry): payload with creation instant and
time to live; the expiry instant is created_at + ttl_seconds. -/
structure CacheEntry (α : Type) where
  payload : α
  created_at : Nat
  ttl_seconds : Nat
deriving DecidableEq, Repr

/-- Modelled from the spec: the TTL disk cache implementation
(src/cache/manager.py and its cache classes) is imported by
`EigenLayerClient` but is not in the source tree.  Spec §3/§4.1: entries
are keyed by (namespace, key); modelled as an association list. -/
structure TTLDiskCache (α : Type) where
  entries : List ((String × String) × CacheEntry α)
deriving DecidableEq, Repr

/-- Spec §4.1 `put`: persists the value with a fresh created_at = now,
overwriting any existing entry for the same (namespace, key). -/
def TTLDiskCache.put (c : TTLDiskCache α) (ns key : String) (v : α)
    (ttl now : Nat) : TTLDiskCache α :=
  ⟨((ns, key), ⟨v, now, ttl⟩) ::
    c.entries.filter (fun e => !(e.1.1 == ns && e.1.2 == key))⟩

/-- Spec §4.1 `get`: returns the cached value if an entry exists under
(namespace, key) and now < created_at + ttl; otherwise returns absent —
never an error — and evicts the stale entry if present. -/
def TTLDiskCache.get (c : TTLDiskCache α) (ns key : String) (now : Nat) :
    Option α × TTLDiskCache α :=
  match c.entries.find? (fun e => e.1.1 == ns && e.1.2 == key) with
  | none => (none, c)
  | some e =>
    if now < e.2.created_at + e.2.ttl_seconds then (some e.2.payload, c)
    else (none, ⟨c.entries.filter (fun x => !(x.1.1 == ns && x.1.2 == key))⟩)

/-- Modelled from the spec: `CacheManager.get_stats` (src/cache/manager.py)
is called by `EigenLayerClient.get_cache_stats` but is not in the source
tree.  Spec §4.1: stats are computed by enumerating the persisted entries
of a namespace (physical occupancy, including logically expired but
not-yet-swept entries); spec §6: a stats request for a namespace outside
the closed set is an input error, not silently ignored.  The per-namespace
statistic is modelled by the persisted-entry count — the size total follows
the same enumeration. -/
def get_stats {α : Type} (c : TTLDiskCache α) (ns : String) : Except String Nat :=
  if ns ∈ cacheNamespaces then
    .ok ((c.entries.filter (fun e => e.1.1 == ns)).length)
  else .error ns

/-- `DatabaseSchema._drop_tables`: drops all eight tables whatever their
contents (create_all_tables then recreates each one empty, so the
composite is the empty database). -/
def drop_tables (db : Database) : Database :=
  { db with
    avs_strategy_shares := []
    operator_strategy_shares := []
    operator_avs_registrations := []
    operator_metrics := []
    avs_metrics := []
    strategies := []
    avs := []
    operators := [] }

/-- `DatabaseSchema.create_all_tables` (schema.py): first `_drop_tables`,
then the eight CREATE TABLE statements, each creating an empty table. -/
def create_all_tables (db : Database) : Database := drop_tables db

/-- The five baseline strategy rows of `DatabaseSchema.import_strategies`. -/
def baselineStrategies : List StrategyRow :=
  [⟨"0x93c4b944D05dfe6df7645A86cd2206016c51564D", "stETH", "Lido Staked ETH",
    "0xae7ab96520DE3A18E5e111B5EaAb095312D7fE84", "staked-ether", 18⟩,
   ⟨"0x1BeE69b7dFFfA4E2d53C2a2Df135C388AD25dCD2", "rETH", "Rocket Pool ETH",
    "0xae78736Cd615f374D3085123A210448E74Fc6393", "rocket-pool-eth", 18⟩,
   ⟨"0x54945180dB7943c0ed0FEE7EdaB2Bd24620256bc", "cbETH", "Coinbase Wrapped ETH",
    "0xBe9895146f7AF43049ca1c1AE358B0541Ea49704", "coinbase-wrapped-staked-eth", 18⟩,
   ⟨"0xaCB55C530Acdb2849e6d4f36992Cd8c9D50ED8F7", "EIGEN", "Eigen",
    "0xec53bF9167f50cDEB3Ae105f56099aaaB9061F83", "eigenlayer", 18⟩,
   ⟨"0xbeaC0eeEeeeeEEeEeEEEEeeEEeEeeeEeeEEBEaC0", "beaconETH", "Beacon ETH",
    "0xbeaC0eeEeeeeEEeEeEEEEeeEEeEeeeEeeEEBEaC0", "ethereum", 18⟩]

/-- The per-strategy `INSERT ... ON CONFLICT (strategy_address) DO UPDATE`
of `DatabaseSchema.import_strategies`. -/
def upsertStrategy (db : Database) (srow : StrategyRow) : Database :=
  { db with strategies :=
    if db.strategies.any (fun x => x.strategy_address == srow.strategy_address) then
      db.strategies.map (fun x =>
        if x.strategy_address == srow.strategy_address then srow else x)
    else db.strategies ++ [srow] }

/-- `DatabaseSchema.import_strategies`: upserts the five baseline rows. -/
def import_strategies (db : Database) : Database :=
  baselineStrategies.foldl upsertStrategy db

/-- `EigenLayerClient.setup_database` (client.py): `create_schema`
(create_all_tables, then views and indexes, which hold no rows) followed
by `import_strategies`. -/
def setup_database (db : Database) : Database :=
  import_strategies (create_all_tables db)
/-- C1: on the spec §8 scenario (operators A and B, no registrations) the
system aggregate view returns 4,000,000 USD as claimed, but on an operator
with two AVS registrations `v_system_aggregate_metrics` sums the
operator's resolved `total_tvl_usd` once per joined registration row:
the view reports 2,000,000 where the per-operator sum is 1,000,000
(amounts in hundredths of USD). -/
theorem system_totals_double_count_on_registrations :
    total_system_tvl_usd dbScenario = 4000000 * 100 ∧
    specSystemTotalUsd dbScenario = 4000000 * 100 ∧
    total_system_tvl_usd dbFanout = 2000000 * 100 ∧
    specSystemTotalUsd dbFanout = 1000000 * 100 ∧
    total_system_tvl_usd dbFanout ≠ specSystemTotalUsd dbFanout := by
  decide

/-- C2 counterexample: on two operators with equal `total_tvl_usd`, both
tie orders are valid outputs of `v_top_operators_by_tvl` (the view orders
only by `total_tvl_usd DESC`), and the order placing 0xb before 0xa
violates the claimed entity-id-ascending tie-break — so the output is
neither id-tie-broken nor deterministic. -/
theorem top_operators_tie_order_unconstrained :
    TopOperatorsOutput dbTie [tieRowB, tieRowA] ∧
    TopOperatorsOutput dbTie [tieRowA, tieRowB] ∧
    ¬ ClaimedRankOrder [tieRowB, tieRowA] := by
  unfold TopOperatorsOutput SortedByTvlDesc ClaimedRankOrder
  decide

/-- C4 counterexample: a batch of three records whose second violates the
operator_metrics foreign key: `bulk_insert` aborts with a DatabaseError,
the record after the failing one is never applied, and the record before
it remains committed — there is no skip-and-report behaviour. -/
theorem bulk_insert_aborts_on_bad_record :
    (bulk_insert sBatch [rowGood1, rowBad, rowGood2]).2 =
      some (.databaseError (.foreignKeyViolation "0xB")) ∧
    rowGood2 ∉ (bulk_insert sBatch [rowGood1, rowBad, rowGood2]).1.committed.operator_metrics ∧
    rowGood1 ∈ (bulk_insert sBatch [rowGood1, rowBad, rowGood2]).1.committed.operator_metrics := by
  decide

/-- C10: re-initialising any existing database via `setup_database`
(`create_all_tables` then `import_strategies`) first drops all eight
tables: every previously stored snapshot fact and registration row is
erased, and only the five freshly imported baseline strategies remain. -/
theorem setup_database_erases_all_facts (db : Database) :
    create_all_tables db = emptyDatabase ∧
    (setup_database db).operators = [] ∧
    (setup_database db).operator_metrics = [] ∧
    (setup_database db).avs = [] ∧
    (setup_database db).avs_metrics = [] ∧
    (setup_database db).operator_avs_registrations = [] ∧
    (setup_database db).operator_strategy_shares = [] ∧
    (setup_database db).avs_strategy_shares = [] ∧
    (setup_database db).strategies = baselineStrategies := by
  exact ⟨rfl, rfl, rfl, rfl, rfl, rfl, rfl, rfl, rfl⟩
/-- C2 (amended): every valid output of `v_top_operators_by_tvl`, truncated
to `limit` rows (the truncation the query layer applies per spec §4.3), is
weakly descending by `total_tvl_usd` and has length at most `limit`; the
relative order of rows with equal `total_tvl_usd` is unconstrained. -/
theorem top_operators_sorted_and_bounded (db : Database)
    (out : List OperatorCurrentStatsRow) (limit : Nat)
    (h : TopOperatorsOutput db out) :
    SortedByTvlDesc (get_top_operators out limit) ∧
    (get_top_operators out limit).length ≤ limit := by
  constructor
  · exact h.2.sublist (List.take_sublist _ _)
  · simp [get_top_operators]

/-- Witness for the amended C2 theorem at a concrete valid output. -/
theorem top_operators_sorted_and_bounded_witness :
    TopOperatorsOutput dbTie [tieRowA, tieRowB] ∧
    (SortedByTvlDesc (get_top_operators [tieRowA, tieRowB] 1) ∧
      (get_top_operators [tieRowA, tieRowB] 1).length ≤ 1) :=
  ⟨by unfold TopOperatorsOutput SortedByTvlDesc; decide,
   top_operators_sorted_and_bounded dbTie [tieRowA, tieRowB] 1
     (by unfold TopOperatorsOutput SortedByTvlDesc; decide)⟩

/-- C5: `insert_or_update` is atomic.  On a quiescent connection a failing
upsert leaves the state exactly as before (the rollback restores the
committed database, so no partial write is observable) and the failure is
propagated wrapped as a DatabaseError; a successful upsert commits,
leaving the connection quiescent again. -/
theorem insert_or_update_atomic (s : DbState) (r : OperatorMetricsRow)
    (hq : s.pending = s.committed) :
    (∀ e, (insert_or_update s r).2 = some e →
      (insert_or_update s r).1 = s ∧ ∃ se, e = ManagerError.databaseError se) ∧
    ((insert_or_update s r).2 = none →
      (insert_or_update s r).1.pending = (insert_or_update s r).1.committed) := by
  constructor
  · intro e he
    unfold insert_or_update at he ⊢
    cases hup : upsertMetrics s.pending r with
    | ok db => rw [hup] at he; simp at he
    | error e0 =>
      rw [hup] at he
      simp only [Option.some.injEq] at he
      refine ⟨?_, e0, he.symm⟩
      show dbRollback s = s
      exact (congrArg (DbState.mk s.committed) hq).symm
  · intro h
    unfold insert_or_update at h ⊢
    cases hup : upsertMetrics s.pending r with
    | ok db => rfl
    | error e0 => rw [hup] at h; simp at h

/-- Witness for the C5 theorem: a failing upsert (unknown operator 0xB)
leaves the quiescent state unchanged and surfaces a DatabaseError. -/
theorem insert_or_update_atomic_witness :
    sBatch.pending = sBatch.committed ∧
    ((∀ e, (insert_or_update sBatch rowBad).2 = some e →
      (insert_or_update sBatch rowBad).1 = sBatch ∧
        ∃ se, e = ManagerError.databaseError se) ∧
     ((insert_or_update sBatch rowBad).2 = none →
      (insert_or_update sBatch rowBad).1.pending =
        (insert_or_update sBatch rowBad).1.committed)) :=
  ⟨rfl, insert_or_update_atomic sBatch rowBad rfl⟩

/-- C7: the cache-management surface treats rpc, prices and contracts as a
closed namespace set: the CLI rejects any other --type value with a usage
error before the command body runs ("all" maps to clearing every
namespace), and the modelled manager level reports an input error — never
a silent no-op — for both a clear request and a stats request naming a
namespace outside the set, while serving both for every namespace inside
it. -/
theorem cache_namespace_closed_set {α : Type} (c : TTLDiskCache α) (s : String) :
    (s ∉ cacheTypeChoices → parseCacheType s = .error s) ∧
    (s ∈ cacheNamespaces →
      parseCacheType s = .ok (some s) ∧ clear_cache (some s) = .cleared [s] ∧
      get_stats c s = .ok ((c.entries.filter (fun e => e.1.1 == s)).length)) ∧
    (s ∉ cacheNamespaces →
      clear_cache (some s) = .inputError s ∧ get_stats c s = .error s) ∧
    parseCacheType "all" = .ok none ∧
    clear_cache none = .cleared cacheNamespaces := by
  refine ⟨?_, ?_, ?_, rfl, rfl⟩
  · intro h
    simp [parseCacheType, h]
  · intro h
    simp only [cacheNamespaces, List.mem_cons, List.not_mem_nil, or_false] at h
    rcases h with rfl | rfl | rfl <;> exact ⟨rfl, rfl, rfl⟩
  · intro h
    exact ⟨by simp [clear_cache, h], by simp [get_stats, h]⟩

/-- C8: immediately after `put`, `get` with the same (namespace, key) and
the same clock instant returns exactly the stored value (the entry is
fresh whenever its ttl is positive); once ttl seconds have elapsed on the
simulated clock, `get` returns absent — an `Option`, never an error. -/
theorem cache_put_get_ttl {α : Type} (c : TTLDiskCache α) (ns key : String)
    (v : α) (ttl now later : Nat) (httl : 0 < ttl) :
    ((c.put ns key v ttl now).get ns key now).1 = some v ∧
    (now + ttl ≤ later → ((c.put ns key v ttl now).get ns key later).1 = none) := by
  constructor
  · simp [TTLDiskCache.put, TTLDiskCache.get, List.find?, httl]
  · intro hl
    have hnot : ¬ later < now + ttl := by omega
    simp [TTLDiskCache.put, TTLDiskCache.get, List.find?, hnot]

/-- Witness for the C8 theorem: the spec §8 cache scenario, put
blockNumber = 12345 in namespace rpc with ttl 10 at t = 100. -/
theorem cache_put_get_ttl_witness :
    0 < 10 ∧
    ((((⟨[]⟩ : TTLDiskCache Nat).put "rpc" "blockNumber" 12345 10 100).get
        "rpc" "blockNumber" 100).1 = some 12345 ∧
     (100 + 10 ≤ 111 →
      (((⟨[]⟩ : TTLDiskCache Nat).put "rpc" "blockNumber" 12345 10 100).get
        "rpc" "blockNumber" 111).1 = none)) :=
  ⟨by decide, cache_put_get_ttl ⟨[]⟩ "rpc" "blockNumber" 12345 10 100 111 (by decide)⟩
/-- A fact returned by `resolve` is a stored fact of the entity within the
reference time. -/
theorem resolve_mem_and_le (db : Database) (addr : String) (t : Nat)
    (f : OperatorMetricsRow) (h : resolve db addr t = some f) :
    f ∈ db.operator_metrics ∧ f.operator_address = addr ∧ f.timestamp ≤ t := by
  unfold resolve at h
  have hmem := List.argmax_mem (Option.mem_def.mpr h)
  rw [List.mem_filter] at hmem
  obtain ⟨hm, hp⟩ := hmem
  simp only [Bool.and_eq_true, beq_iff_eq, decide_eq_true_eq] at hp
  exact ⟨hm, hp.1, hp.2⟩

/-- A fact selected by `latestMetrics` is a stored fact of the operator of
maximal timestamp. -/
theorem latestMetrics_spec (db : Database) (o : String) (om : OperatorMetricsRow)
    (h : latestMetrics db o = some om) :
    om ∈ db.operator_metrics ∧ om.operator_address = o ∧
    ∀ g ∈ db.operator_metrics, g.operator_address = o →
      g.timestamp ≤ om.timestamp := by
  unfold latestMetrics at h
  have hmem := List.argmax_mem (Option.mem_def.mpr h)
  rw [List.mem_filter] at hmem
  obtain ⟨hm, hp⟩ := hmem
  simp only [beq_iff_eq] at hp
  refine ⟨hm, hp, ?_⟩
  intro g hg hga
  exact List.le_of_mem_argmax
    (List.mem_filter.2 ⟨hg, by simp [hga]⟩) (Option.mem_def.mpr h)

/-- Every `v_operator_current_stats` row is produced from the
maximal-timestamp metrics fact of its operator. -/
theorem operatorCurrentStats_mem (db : Database) (row : OperatorCurrentStatsRow)
    (h : row ∈ operatorCurrentStats db) :
    ∃ om, latestMetrics db row.operator_address = some om ∧
      om.total_tvl_usd = row.total_tvl_usd ∧ om.timestamp = row.last_updated := by
  unfold operatorCurrentStats at h
  obtain ⟨o, _, heq⟩ := List.mem_filterMap.1 h
  obtain ⟨om, hom, hrow⟩ := Option.map_eq_some'.mp heq
  subst hrow
  exact ⟨om, hom, rfl, rfl⟩

/-- C3: `resolve` returns the stored fact of maximal timestamp not
exceeding the reference time and returns absent exactly when the entity
has no fact at or before that time; an entity with no stored facts
contributes no row to `v_operator_current_stats` (it is excluded, not
defaulted), and every row of that view carries its operator's
maximal-timestamp fact. -/
theorem resolve_as_of_spec (db : Database) (addr : String) (t : Nat) :
    (∀ f, resolve db addr t = some f →
      f ∈ db.operator_metrics ∧ f.operator_address = addr ∧ f.timestamp ≤ t ∧
      ∀ g ∈ db.operator_metrics, g.operator_address = addr → g.timestamp ≤ t →
        g.timestamp ≤ f.timestamp) ∧
    (resolve db addr t = none ↔
      ∀ g ∈ db.operator_metrics, g.operator_address = addr → ¬ g.timestamp ≤ t) ∧
    ((∀ g ∈ db.operator_metrics, g.operator_address ≠ addr) →
      ∀ row ∈ operatorCurrentStats db, row.operator_address ≠ addr) ∧
    (∀ row ∈ operatorCurrentStats db, ∃ om,
      om ∈ db.operator_metrics ∧ om.operator_address = row.operator_address ∧
      om.total_tvl_usd = row.total_tvl_usd ∧ om.timestamp = row.last_updated ∧
      ∀ g ∈ db.operator_metrics, g.operator_address = row.operator_address →
        g.timestamp ≤ om.timestamp) := by
  refine ⟨?_, ?_, ?_, ?_⟩
  · intro f hf
    obtain ⟨hm, ha, ht⟩ := resolve_mem_and_le db addr t f hf
    refine ⟨hm, ha, ht, ?_⟩
    intro g hg hga hgt
    exact List.le_of_mem_argmax
      (List.mem_filter.2 ⟨hg, by simp [hga, hgt]⟩) (Option.mem_def.mpr hf)
  · constructor
    · intro h g hg hga hgt
      unfold resolve at h
      rw [List.argmax_eq_none, List.filter_eq_nil_iff] at h
      exact h g hg (by simp [hga, hgt])
    · intro h
      unfold resolve
      rw [List.argmax_eq_none, List.filter_eq_nil_iff]
      intro g hg
      simp only [Bool.and_eq_true, beq_iff_eq, decide_eq_true_eq, not_and]
      exact h g hg
  · intro h row hrow heq
    obtain ⟨om, hom, _, _⟩ := operatorCurrentStats_mem db row hrow
    obtain ⟨hm, ha, _⟩ := latestMetrics_spec db row.operator_address om hom
    exact h om hm (heq ▸ ha)
  · intro row hrow
    obtain ⟨om, hom, husd, hts⟩ := operatorCurrentStats_mem db row hrow
    obtain ⟨hm, ha, hmax⟩ := latestMetrics_spec db row.operator_address om hom
    exact ⟨om, hm, ha, husd, hts, hmax⟩
/-- A successful metrics upsert leaves every other table, in particular
`operators`, unchanged. -/
theorem upsertMetrics_ok_operators (db db2 : Database) (r : OperatorMetricsRow)
    (h : upsertMetrics db r = .ok db2) : db2.operators = db.operators := by
  unfold upsertMetrics at h
  by_cases hm : r.operator_address ∈ db.operators
  · rw [if_pos hm] at h
    cases h
    rfl
  · rw [if_neg hm] at h
    cases h

/-- The row loop of `bulk_insert` aborts at the first record whose upsert
fails: the valid prefix stays committed, the failing and remaining records
are never applied, and the loop surfaces a DatabaseError. -/
theorem bulkLoop_aborts (good : List OperatorMetricsRow)
    (bad : OperatorMetricsRow) (rest : List OperatorMetricsRow) :
    ∀ s : DbState, s.pending = s.committed →
    (∀ g ∈ good, g.operator_address ∈ s.committed.operators) →
    bad.operator_address ∉ s.committed.operators →
    bulkLoop s (good ++ bad :: rest) =
      (⟨applyValidUpserts s.committed good, applyValidUpserts s.committed good⟩,
       some (ManagerError.databaseError
         (SqlError.foreignKeyViolation bad.operator_address))) := by
  induction good with
  | nil =>
    intro s hq _ hbad
    have hup : upsertMetrics s.pending bad =
        .error (.foreignKeyViolation bad.operator_address) := by
      unfold upsertMetrics
      rw [hq, if_neg hbad]
    simp only [List.nil_append, applyValidUpserts, List.foldl_nil]
    unfold bulkLoop insert_or_update
    rw [hup]
    rfl
  | cons g gs ih =>
    intro s hq hgood hbad
    have hg : g.operator_address ∈ s.committed.operators := hgood g (by simp)
    cases hup : upsertMetrics s.pending g with
    | error e =>
      exfalso
      unfold upsertMetrics at hup
      rw [hq, if_pos hg] at hup
      cases hup
    | ok db2 =>
      have hup' : upsertMetrics s.committed g = .ok db2 := by rw [← hq]; exact hup
      have hops : db2.operators = s.committed.operators :=
        upsertMetrics_ok_operators s.committed db2 g hup'
      have hstep : bulkLoop s ((g :: gs) ++ bad :: rest) =
          bulkLoop ⟨db2, db2⟩ (gs ++ bad :: rest) := by
        show (match insert_or_update s g with
          | (s2, none) => bulkLoop s2 (gs ++ bad :: rest)
          | (s2, some e) => (dbRollback s2, some e)) =
          bulkLoop ⟨db2, db2⟩ (gs ++ bad :: rest)
        unfold insert_or_update
        rw [hup]
        exact rfl
      have happly : applyValidUpserts s.committed (g :: gs) =
          applyValidUpserts db2 gs := by
        unfold applyValidUpserts
        rw [List.foldl_cons, hup']
      rw [hstep, happly]
      exact ih ⟨db2, db2⟩ rfl
        (fun g' hg' => hops ▸ hgood g' (List.mem_cons_of_mem g hg'))
        (hops ▸ hbad)

/-- C4 (amended): batch ingestion does not continue past a failing record —
`bulk_insert` applies records in order, aborts at the first record whose
insert fails (here: the schema's foreign-key check), leaves exactly the
valid prefix committed, raises a storage-level DatabaseError, and collects
no report of skipped records. -/
theorem bulk_insert_aborts_at_first_failure (s : DbState)
    (good : List OperatorMetricsRow) (bad : OperatorMetricsRow)
    (rest : List OperatorMetricsRow) (hq : s.pending = s.committed)
    (hgood : ∀ g ∈ good, g.operator_address ∈ s.committed.operators)
    (hbad : bad.operator_address ∉ s.committed.operators) :
    bulk_insert s (good ++ bad :: rest) =
      (⟨applyValidUpserts s.committed good, applyValidUpserts s.committed good⟩,
       some (ManagerError.databaseError
         (SqlError.foreignKeyViolation bad.operator_address))) := by
  cases good with
  | nil => exact bulkLoop_aborts [] bad rest s hq (by simp) hbad
  | cons g gs => exact bulkLoop_aborts (g :: gs) bad rest s hq hgood hbad

/-- Witness for the amended C4 theorem on the concrete three-record batch. -/
theorem bulk_insert_aborts_at_first_failure_witness :
    sBatch.pending = sBatch.committed ∧
    (∀ g ∈ [rowGood1], g.operator_address ∈ sBatch.committed.operators) ∧
    rowBad.operator_address ∉ sBatch.committed.operators ∧
    bulk_insert sBatch ([rowGood1] ++ rowBad :: [rowGood2]) =
      (⟨applyValidUpserts sBatch.committed [rowGood1],
        applyValidUpserts sBatch.committed [rowGood1]⟩,
       some (ManagerError.databaseError
         (SqlError.foreignKeyViolation rowBad.operator_address))) :=
  ⟨rfl, by decide, by decide,
   bulk_insert_aborts_at_first_failure sBatch [rowGood1] rowBad [rowGood2]
     rfl (by decide) (by decide)⟩
/-- A successful `insert_or_update` commits the upserted pending database
and raises nothing. -/
theorem insert_or_update_ok_parts (s : DbState) (r : OperatorMetricsRow)
    (h : r.operator_address ∈ s.pending.operators) :
    (insert_or_update s r).2 = none ∧
    (insert_or_update s r).1.committed =
      { s.pending with operator_metrics :=
          upsertedMetricsList s.pending.operator_metrics r } ∧
    (insert_or_update s r).1.pending = (insert_or_update s r).1.committed := by
  unfold insert_or_update upsertMetrics
  rw [if_pos h]
  exact ⟨rfl, rfl, rfl⟩

/-- A row matches its own primary key. -/
theorem keyMatch_self (r : OperatorMetricsRow) : metricsKeyMatch r r = true := by
  simp [metricsKeyMatch]

/-- Rows with equal primary-key columns induce the same key predicate. -/
theorem keyMatch_congr (r1 r2 : OperatorMetricsRow)
    (haddr : r2.operator_address = r1.operator_address)
    (hts : r2.timestamp = r1.timestamp) :
    metricsKeyMatch r2 = metricsKeyMatch r1 := by
  funext x
  unfold metricsKeyMatch
  rw [haddr, hts]

/-- Replacing every p-matching element of a list by a fixed p-matching
element makes the p-filter a run of that element, one per former match. -/
theorem filter_map_replace {α : Type} (p : α → Bool) (r : α) (hp : p r = true)
    (l : List α) :
    (l.map (fun x => if p x then r else x)).filter p =
      List.replicate (l.countP p) r := by
  induction l with
  | nil => rfl
  | cons x xs ih =>
    by_cases hx : p x = true
    · simp [List.filter_cons, List.countP_cons, hx, hp, ih, List.replicate_succ]
    · simp [List.filter_cons, List.countP_cons, hx, ih]

/-- After an upsert, the rows carrying the upserted row's primary key are
exactly one copy of it per former occurrence of the key — and exactly one
copy when the key was previously absent. -/
theorem filter_upserted (l : List OperatorMetricsRow) (r : OperatorMetricsRow) :
    (upsertedMetricsList l r).filter (metricsKeyMatch r) =
      List.replicate (max (l.countP (metricsKeyMatch r)) 1) r := by
  unfold upsertedMetricsList
  by_cases h : l.any (metricsKeyMatch r) = true
  · rw [if_pos h, filter_map_replace (metricsKeyMatch r) r (keyMatch_self r) l]
    obtain ⟨a, ha, hpa⟩ := List.any_eq_true.1 h
    have hpos : 1 ≤ l.countP (metricsKeyMatch r) := List.countP_pos_iff.2 ⟨a, ha, hpa⟩
    rw [Nat.max_eq_left hpos]
  · rw [if_neg h]
    have hnone : ∀ a ∈ l, ¬ metricsKeyMatch r a = true := by
      intro a ha hpa
      exact h (List.any_eq_true.2 ⟨a, ha, hpa⟩)
    have h0 : l.countP (metricsKeyMatch r) = 0 := List.countP_eq_zero.2 hnone
    have hfil : l.filter (metricsKeyMatch r) = [] := List.filter_eq_nil_iff.2 hnone
    rw [h0, List.filter_append, hfil]
    simp [keyMatch_self r]

/-- The key count after an upsert. -/
theorem countP_upserted (l : List OperatorMetricsRow) (r : OperatorMetricsRow) :
    (upsertedMetricsList l r).countP (metricsKeyMatch r) =
      max (l.countP (metricsKeyMatch r)) 1 := by
  rw [List.countP_eq_length_filter, filter_upserted, List.length_replicate]

/-- An upsert never leaves behind a different row carrying the same primary
key as the upserted one. -/
theorem not_mem_upserted (l : List OperatorMetricsRow) (r y : OperatorMetricsRow)
    (hpy : metricsKeyMatch r y = true) (hne : y ≠ r) :
    y ∉ upsertedMetricsList l r := by
  unfold upsertedMetricsList
  by_cases h : l.any (metricsKeyMatch r) = true
  · rw [if_pos h]
    intro hmem
    obtain ⟨x, _, hxy⟩ := List.mem_map.1 hmem
    by_cases hpx : metricsKeyMatch r x = true
    · rw [if_pos hpx] at hxy
      exact hne hxy.symm
    · rw [if_neg hpx] at hxy
      subst hxy
      exact hpx hpy
  · rw [if_neg h]
    intro hmem
    rcases List.mem_append.1 hmem with hl | hr
    · exact h (List.any_eq_true.2 ⟨y, hl, hpy⟩)
    · exact hne (List.mem_singleton.1 hr)

/-- C6: two successive `insert_or_update` calls for the same
(entity_id, entity_kind, timestamp) key both succeed, and afterwards the
store holds exactly one row under that key — the second call's attribute
set; the first call's row is gone (overwritten in place, not versioned)
and can never again be returned by `resolve` at any reference time. -/
theorem upsert_last_write_wins (s : DbState) (r1 r2 : OperatorMetricsRow)
    (hq : s.pending = s.committed)
    (huniq : metricsKeyCount s.committed r1 ≤ 1)
    (hfk : r1.operator_address ∈ s.committed.operators)
    (haddr : r2.operator_address = r1.operator_address)
    (hts : r2.timestamp = r1.timestamp) :
    (insert_or_update s r1).2 = none ∧
    (insert_or_update (insert_or_update s r1).1 r2).2 = none ∧
    ((insert_or_update (insert_or_update s r1).1 r2).1).committed.operator_metrics.filter
      (metricsKeyMatch r1) = [r2] ∧
    (r1 ≠ r2 →
      r1 ∉ ((insert_or_update (insert_or_update s r1).1 r2).1).committed.operator_metrics) ∧
    (r1 ≠ r2 → ∀ t,
      resolve ((insert_or_update (insert_or_update s r1).1 r2).1).committed
        r1.operator_address t ≠ some r1) := by
  have hA : metricsKeyMatch r2 = metricsKeyMatch r1 := keyMatch_congr r1 r2 haddr hts
  have hfk1 : r1.operator_address ∈ s.pending.operators := by
    rw [hq]
    exact hfk
  obtain ⟨he1, hc1, hp1⟩ := insert_or_update_ok_parts s r1 hfk1
  have hm1 : (insert_or_update s r1).1.pending.operator_metrics =
      upsertedMetricsList s.committed.operator_metrics r1 := by
    rw [hp1, hc1, hq]
  have ho1 : (insert_or_update s r1).1.pending.operators = s.committed.operators := by
    rw [hp1, hc1, hq]
  have hfk2 : r2.operator_address ∈ (insert_or_update s r1).1.pending.operators := by
    rw [ho1, haddr]
    exact hfk
  obtain ⟨he2, hc2, hp2⟩ := insert_or_update_ok_parts (insert_or_update s r1).1 r2 hfk2
  have hm2 : (insert_or_update (insert_or_update s r1).1 r2).1.committed.operator_metrics =
      upsertedMetricsList (upsertedMetricsList s.committed.operator_metrics r1) r2 := by
    rw [hc2, hm1]
  have hcount : (upsertedMetricsList s.committed.operator_metrics r1).countP
      (metricsKeyMatch r2) ≤ 1 := by
    rw [hA, countP_upserted]
    have hb : s.committed.operator_metrics.countP (metricsKeyMatch r1) ≤ 1 := by
      rw [List.countP_eq_length_filter]
      exact huniq
    omega
  have hfil : ((insert_or_update (insert_or_update s r1).1 r2).1).committed.operator_metrics.filter
      (metricsKeyMatch r1) = [r2] := by
    rw [hm2, ← hA, filter_upserted, Nat.max_eq_right hcount]
    rfl
  have hnotmem : r1 ≠ r2 →
      r1 ∉ ((insert_or_update (insert_or_update s r1).1 r2).1).committed.operator_metrics := by
    intro hne
    rw [hm2]
    exact not_mem_upserted _ r2 r1 (by rw [hA]; exact keyMatch_self r1) hne
  refine ⟨he1, he2, hfil, hnotmem, ?_⟩
  intro hne t hres
  exact hnotmem hne (resolve_mem_and_le _ r1.operator_address t r1 hres).1

/-- Witness for the C6 theorem: ingesting two facts for key (0xA, 100)
with different USD totals leaves only the second one. -/
theorem upsert_last_write_wins_witness :
    sBatch.pending = sBatch.committed ∧
    metricsKeyCount sBatch.committed rowGood1 ≤ 1 ∧
    rowGood1.operator_address ∈ sBatch.committed.operators ∧
    (mkMetrics "0xA" 100 777).operator_address = rowGood1.operator_address ∧
    (mkMetrics "0xA" 100 777).timestamp = rowGood1.timestamp ∧
    ((insert_or_update sBatch rowGood1).2 = none ∧
     (insert_or_update (insert_or_update sBatch rowGood1).1 (mkMetrics "0xA" 100 777)).2 = none ∧
     ((insert_or_update (insert_or_update sBatch rowGood1).1
        (mkMetrics "0xA" 100 777)).1).committed.operator_metrics.filter
       (metricsKeyMatch rowGood1) = [mkMetrics "0xA" 100 777] ∧
     (rowGood1 ≠ mkMetrics "0xA" 100 777 →
       rowGood1 ∉ ((insert_or_update (insert_or_update sBatch rowGood1).1
         (mkMetrics "0xA" 100 777)).1).committed.operator_metrics) ∧
     (rowGood1 ≠ mkMetrics "0xA" 100 777 → ∀ t,
       resolve ((insert_or_update (insert_or_update sBatch rowGood1).1
         (mkMetrics "0xA" 100 777)).1).committed
         rowGood1.operator_address t ≠ some rowGood1)) :=
  ⟨rfl, by decide, by decide, rfl, rfl,
   upsert_last_write_wins sBatch rowGood1 (mkMetrics "0xA" 100 777)
     rfl (by decide) (by decide) rfl rfl⟩
